import Mathlib

/-!
# usbl_gazebo: the transponder plugin

A shallow embedding of `src/usbl_gazebo/src/transponderPlugin.cpp`, the Gazebo model plugin
`gazebo::TransponderPlugin`, and the properties of its callbacks.

Conventions of the embedding.

* A C++ `double` is an exact real number: rounding and overflow are not modelled.  The values the
  plugin stores are rational.  The length of a vector is the square root of a rational and is kept
  exact as the type `Root`, by its square; its quotient by a rational is kept exact as a
  `SignedRoot`, by its sign and its square.  The theorems `Length_real`, `fdiv_real`,
  `floorAbs_eq_floor_sqrt` and `trunc_real` relate these to the real square root.  A quotient
  with a zero divisor (an infinity or a NaN in the source) is `none` in `fdiv`.
* `std::string` is `String`; the characters of the identifiers are taken to be ASCII, so that a
  `char` has the value of its code point.
* The callbacks are methods that mutate `this` and act on the outside world.  Here every callback
  is a function from the plugin state (and the part of the world it reads) to the new plugin state
  and the list of the effects it performed, in program order.
* A callback that dereferences a null pointer, performs a conversion on which C++ puts no
  meaning, or breaks the precondition of a library call, yields `Except.error`.
* `m_model` is assigned by `Load` before any subscription exists, and the callbacks only read the
  pose of that model through it: the pose is the field `self` of `World`, and the pointer itself
  is left out of the state.
-/

namespace gazebo

/-! ## Collaborators: vectors, the world, the configuration element, the messages -/

/-- The class `ignition::math::Vector3<double>`. -/
structure Vector3 where
  X : ℚ
  Y : ℚ
  Z : ℚ
deriving DecidableEq

/-- Componentwise difference, `operator-` of `Vector3`. -/
def Vector3.sub (a b : Vector3) : Vector3 :=
  ⟨a.X - b.X, a.Y - b.Y, a.Z - b.Z⟩

/-- The sum of the squares of the components, `Vector3::SquaredLength`. -/
def Vector3.SquaredLength (v : Vector3) : ℚ :=
  v.X * v.X + v.Y * v.Y + v.Z * v.Z

/-- A nonnegative real number known by its square: the value is the square root of `sq`. -/
structure Root where
  sq : ℚ
deriving DecidableEq

/-- The Euclidean norm, `Vector3::Length`: the square root of `SquaredLength`. -/
def Vector3.Length (v : Vector3) : Root :=
  ⟨v.SquaredLength⟩

/-- A real number known by its sign and its square: the value is minus the square root of `sq`
when `neg` is set, and the square root of `sq` otherwise. -/
structure SignedRoot where
  neg : Bool
  sq : ℚ
deriving DecidableEq

/-- A rational number as a `SignedRoot`. -/
def SignedRoot.ofRat (q : ℚ) : SignedRoot :=
  ⟨decide (q < 0), q * q⟩

/-- The part of the simulated world a callback can observe: the position of the plugin's own
model (`this->m_model->WorldPose().Pos()`) and the positions of the models of the world by name. -/
structure World where
  self : Vector3
  models : List (String × Vector3)

/-- The query `World::ModelByName`, followed by `WorldPose().Pos()` on the model found: `none` is
the null `ModelPtr` returned for a name that no model of the world has. -/
def World.ModelByName (w : World) (name : String) : Option Vector3 :=
  w.models.lookup name

/-- A child of the plugin's `<plugin>` SDF element: its text, and the value that
`sdf::Element::Get<double>` reads from that text. -/
structure Param where
  text : String
  asDouble : ℚ

/-- The SDF element handed to `Load`, as the table of its children. -/
structure Element where
  children : List (String × Param)

/-- The test `sdf::Element::HasElement`. -/
def Element.HasElement (e : Element) (name : String) : Bool :=
  (e.children.lookup name).isSome

/-- The getter `sdf::Element::Get<std::string>`. -/
def Element.GetString (e : Element) (name : String) : String :=
  ((e.children.lookup name).map Param.text).getD ""

/-- The getter `sdf::Element::Get<double>`. -/
def Element.GetDouble (e : Element) (name : String) : ℚ :=
  ((e.children.lookup name).map Param.asDouble).getD 0

/-- Modelled from the spec: the message type `usbl_gazebo::USBLCommand`, whose generated header
`usbl_gazebo/USBLCommand.h` is not among the sources; the request schema of the specification is
`{commandID: int, transponderID: string, data: string}`. -/
structure USBLCommand where
  commandID : ℤ
  transponderID : String
  data : String
deriving DecidableEq

/-- Modelled from the spec: the message type `usbl_gazebo::USBLResponse`, whose generated header
`usbl_gazebo/USBLResponse.h` is not among the sources; the fields are those the source assigns
(`data`, `responseID`, `transceverID`), a string and two integers. -/
structure USBLResponse where
  data : String
  responseID : ℤ
  transceverID : ℤ
deriving DecidableEq

/-- The Gazebo message `msgs::Vector3d`. -/
structure Vector3d where
  x : ℚ
  y : ℚ
  z : ℚ
deriving DecidableEq

/-- What a callback does to the outside world. -/
inductive Effect where
  /-- A line written through `gzmsg`. -/
  | gzmsg (text : String)
  /-- A line written through `gzmsg` that ends with a number and a unit. -/
  | gzmsgValue (text : String) (value : ℚ) (tail : String)
  /-- A line written through `gzerr`. -/
  | gzerr (text : String)
  /-- The call `ros::init(argc, argv, name, NoSigintHandler)`. -/
  | rosInit (name : String)
  /-- The call `sleep(seconds)` of `unistd.h`, whose parameter is an `unsigned int`. -/
  | sleep (seconds : ℕ)
  /-- The call `m_globalPosPub->Publish(msg)`. -/
  | publishGlobalPos (msg : Vector3d)
  /-- The call `m_commandResponsePub.publish(msg)`. -/
  | publishCommandResponse (msg : USBLResponse)
deriving DecidableEq

/-- The ways a callback can leave the defined behaviour of C++. -/
inductive Fault where
  /-- The operator `->` applied to a null `ModelPtr`. -/
  | nullDereference
  /-- A `double` converted to `unsigned int` whose truncated value the type cannot hold. -/
  | undefinedConversion
  /-- The call `back()` on an empty `std::string`. -/
  | backOfEmptyString
  /-- A `std::normal_distribution` built with a standard deviation that is not positive: the
  constructor requires `0 < stddev`. -/
  | stddevNotPositive
deriving DecidableEq

/-- The draws of a `std::normal_distribution<>` built with mean `mu` and standard deviation
`sigma` on one freshly seeded `std::mt19937`: the value at `(mu, sigma, k)` is the result of the
call number `k` (from 0) of `d(gen)`.  The generator is seeded from `std::random_device`, so the
draws are an input of the callback. -/
abbrev NormalDraws := ℚ → ℚ → ℕ → ℚ

/-! ## Numeric conversions -/

/-- The quotient of a length by a double: finite exactly when the divisor is not zero.  The
quotient of the square root of `a.sq` by `b` has the sign of `b` and the square `a.sq / b²`. -/
def fdiv (a : Root) (b : ℚ) : Option SignedRoot :=
  if b = 0 then none else some ⟨decide (b < 0), a.sq / (b * b)⟩

/-- The integer part of the absolute value: the integer part of the square root of `sq` is the
integer square root of the integer part of `sq`. -/
def SignedRoot.floorAbs (r : SignedRoot) : ℕ :=
  Nat.sqrt (Rat.floor r.sq).toNat

/-- Truncation toward zero. -/
def SignedRoot.trunc (r : SignedRoot) : ℤ :=
  if r.neg then -(r.floorAbs : ℤ) else (r.floorAbs : ℤ)

/-- The implicit conversion of a `double` argument to the `unsigned int` parameter of `sleep`:
the value is truncated toward zero, and the conversion has a meaning only when the truncated value
is one of the 32-bit `unsigned int`. -/
def toUnsigned : Option SignedRoot → Option ℕ
  | none => none
  | some r => if 0 ≤ r.trunc ∧ r.trunc < 2 ^ 32 then some r.trunc.toNat else none

/-! ## The plugin -/

/-- The data members of `gazebo::TransponderPlugin`.  A publisher or a subscriber is the name of
its topic once created, a node handle is its namespace, and the queue thread is a flag that tells
whether it was started. -/
structure TransponderPlugin where
  m_namespace : String
  m_transponderDevice : String
  m_transponderID : String
  m_transceiverDevice : String
  m_transceiverID : String
  m_temperature : ℚ
  m_soundSpeed : ℚ
  m_noiseMu : ℚ
  m_noiseSigma : ℚ
  m_gzNode : Bool
  m_globalPosPub : Option String
  m_commandResponsePub : Option String
  m_iisSub : Option String
  m_cisSub : Option String
  m_commandSub : Option String
  m_temperatureSub : Option String
  m_rosNode : Option String
  m_rosQueueThread : Bool
deriving DecidableEq

/-- The constructor `TransponderPlugin()`.  Its initialiser list is
`m_temperature(10.0), m_noiseMu(0), m_noiseSigma(1)`: the member `m_soundSpeed` is not in it and
has no default member initialiser, so its value after construction is indeterminate; `uninit` is
that value.  The strings and handles are default-constructed. -/
def TransponderPlugin.ctor (uninit : ℚ) : TransponderPlugin where
  m_namespace := ""
  m_transponderDevice := ""
  m_transponderID := ""
  m_transceiverDevice := ""
  m_transceiverID := ""
  m_temperature := 10
  m_soundSpeed := uninit
  m_noiseMu := 0
  m_noiseSigma := 1
  m_gzNode := false
  m_globalPosPub := none
  m_commandResponsePub := none
  m_iisSub := none
  m_cisSub := none
  m_commandSub := none
  m_temperatureSub := none
  m_rosNode := none
  m_rosQueueThread := false

/-- The prefix `"/" + m_namespace + "/" + device + "_" + id` shared by the topic names. -/
def topicBase (ns device id : String) : String :=
  "/" ++ ns ++ "/" ++ device ++ "_" ++ id

/-- The method `Load`, with `rosInitialized` the value of `ros::isInitialized()`.  Every early
`return` of the source is a branch that yields the state reached so far. -/
def TransponderPlugin.Load (self : TransponderPlugin) (rosInitialized : Bool) (_sdf : Element) :
    TransponderPlugin × List Effect :=
  if !rosInitialized then
    (self, [Effect.gzerr "ROS has not been inintialized\n", Effect.rosInit "transponder"])
  else if !_sdf.HasElement "namespace" then
    (self, [Effect.gzerr
      "Missing required parameter <namespace>, plugin will not be initialized.\n"])
  else
    let s1 := { self with m_namespace := _sdf.GetString "namespace" }
    if !_sdf.HasElement "transponder_device" then
      (s1, [Effect.gzerr
        "Missing required parameter <transponder_device>, plugin will not be initialized.\n"])
    else
      let s2 := { s1 with m_transponderDevice := _sdf.GetString "transponder_device" }
      let log2 := [Effect.gzmsg ("Transponder device: " ++ s2.m_transponderDevice ++ "\n")]
      if !_sdf.HasElement "transponder_ID" then
        (s2, log2 ++ [Effect.gzerr
          "Missing required parameter <transponder_ID>, plugin will not be initialized.\n"])
      else
        let s3 := { s2 with m_transponderID := _sdf.GetString "transponder_ID" }
        if !_sdf.HasElement "transceiver_device" then
          (s3, log2 ++ [Effect.gzerr
            "Missing required parameter <transceiver_device>, plugin will not be initialized.\n"])
        else
          let s4 := { s3 with m_transceiverDevice := _sdf.GetString "transceiver_device" }
          if !_sdf.HasElement "transceiver_ID" then
            (s4, log2 ++ [Effect.gzerr
              "Missing required parameter <transceiver_ID>, plugin will not be initialized.\n"])
          else
            let s5 := { s4 with m_transceiverID := _sdf.GetString "transceiver_ID" }
            let s6 := if _sdf.HasElement "mu" then
              { s5 with m_noiseMu := _sdf.GetDouble "mu" } else s5
            let s7 := if _sdf.HasElement "sigma" then
              { s6 with m_noiseSigma := _sdf.GetDouble "sigma" } else s6
            let own := topicBase s7.m_namespace s7.m_transponderDevice s7.m_transponderID
            ({ s7 with
                m_gzNode := true
                m_globalPosPub := some (topicBase s7.m_namespace s7.m_transceiverDevice
                  s7.m_transponderID ++ "/global_position")
                m_rosNode := some s7.m_transponderDevice
                m_commandResponsePub := some (topicBase s7.m_namespace s7.m_transceiverDevice
                  s7.m_transceiverID ++ "/command_response")
                m_iisSub := some (own ++ "/individual_interrogation_ping")
                m_cisSub := some ("/" ++ s7.m_namespace ++ "/common_interrogation_ping")
                m_temperatureSub := some (own ++ "/temperature")
                m_commandSub := some (own ++ "/command_request")
                m_rosQueueThread := true },
              log2 ++ [Effect.gzmsg "transponder plugin loaded\n"])

/-- The method `sendLocation`: a distribution built from `m_noiseMu` and `m_noiseSigma` (its
constructor requires a positive standard deviation), the pose of the model read from the world,
and one draw added to each of X, Y and Z in three successive statements; the message is then
published. -/
def TransponderPlugin.sendLocation (self : TransponderPlugin) (w : World) (d : NormalDraws) :
    Except Fault (List Effect) :=
  if 0 < self.m_noiseSigma then
    let position := w.self
    let x := position.X + d self.m_noiseMu self.m_noiseSigma 0
    let y := position.Y + d self.m_noiseMu self.m_noiseSigma 1
    let z := position.Z + d self.m_noiseMu self.m_noiseSigma 2
    Except.ok [Effect.publishGlobalPos ⟨x, y, z⟩]
  else
    Except.error Fault.stddevNotPositive

/-- The method `temperatureRosCallback`, with `data` the payload of the message. -/
def TransponderPlugin.temperatureRosCallback (self : TransponderPlugin) (w : World) (data : ℚ) :
    TransponderPlugin × List Effect :=
  let s1 := { self with m_temperature := data }
  let my_pos := w.self
  let s2 := { s1 with
    m_soundSpeed := 1540.4 + my_pos.Z / 1000 * 17 + (s1.m_temperature - 10) * 4 }
  (s2, [Effect.gzmsgValue "Detected change of temperature, transponder sound speed is now: "
    s2.m_soundSpeed " m/s\n"])

/-- The method `iisRosCallback`, with `data` the payload of the message.  The world is `w` when
the callback starts and `later n` once `sleep` has returned after `n` seconds. -/
def TransponderPlugin.iisRosCallback (self : TransponderPlugin) (w : World) (later : ℕ → World)
    (d : NormalDraws) (data : String) : Except Fault (TransponderPlugin × List Effect) :=
  match w.ModelByName "box" with
  | none => Except.error Fault.nullDereference
  | some boxPos =>
    let dist := (w.self.sub boxPos).Length
    let command := data
    if command = "ping" then
      match toUnsigned (fdiv dist self.m_soundSpeed) with
      | none => Except.error Fault.undefinedConversion
      | some seconds =>
        match self.sendLocation (later seconds) d with
        | Except.error f => Except.error f
        | Except.ok sent =>
          Except.ok (self,
            [Effect.gzmsg (self.m_transponderDevice ++ "_" ++ self.m_transponderID
                ++ ": Received iis_ping, responding\n"),
              Effect.sleep seconds] ++ sent)
    else
      Except.ok (self, [Effect.gzmsg "Unknown command, ignore\n"])

/-- The method `cisRosCallback`, with `data` the payload of the message; the `gzmsg` of the
accepting branch is commented out in the source. -/
def TransponderPlugin.cisRosCallback (self : TransponderPlugin) (w : World) (later : ℕ → World)
    (d : NormalDraws) (data : String) : Except Fault (TransponderPlugin × List Effect) :=
  match w.ModelByName "box" with
  | none => Except.error Fault.nullDereference
  | some boxPos =>
    let dist := (w.self.sub boxPos).Length
    let command := data
    if command = "ping" then
      match toUnsigned (fdiv dist self.m_soundSpeed) with
      | none => Except.error Fault.undefinedConversion
      | some seconds =>
        match self.sendLocation (later seconds) d with
        | Except.error f => Except.error f
        | Except.ok sent => Except.ok (self, [Effect.sleep seconds] ++ sent)
    else
      Except.ok (self, [Effect.gzmsg "Unknown command, ignore\n"])

/-- The method `commandRosCallback`.  The request `msg` is not read by the source: the reply is
built from the data members only. -/
def TransponderPlugin.commandRosCallback (self : TransponderPlugin) (_msg : USBLCommand) :
    Except Fault (TransponderPlugin × List Effect) :=
  match self.m_transceiverID.data.getLast? with
  | none => Except.error Fault.backOfEmptyString
  | some c =>
    let response_msg : USBLResponse :=
      { data := "hi from transponder_" ++ self.m_transponderID
        responseID := 1
        transceverID := (c.toNat : ℤ) - ('0'.toNat : ℤ) }
    Except.ok (self, [Effect.publishCommandResponse response_msg])

/-! ## Observations on an outcome -/

/-- Whether an effect is log output. -/
def Effect.isLog : Effect → Bool
  | Effect.gzmsg _ => true
  | Effect.gzmsgValue _ _ _ => true
  | Effect.gzerr _ => true
  | _ => false

/-- An outcome with the log output removed. -/
def withoutLog (r : Except Fault (TransponderPlugin × List Effect)) :
    Except Fault (TransponderPlugin × List Effect) :=
  match r with
  | Except.error f => Except.error f
  | Except.ok (s, es) => Except.ok (s, es.filter (fun e => !e.isLog))

/-- All five required children are present. -/
def requiredPresent (sdf : Element) : Bool :=
  sdf.HasElement "namespace" && sdf.HasElement "transponder_device" &&
    sdf.HasElement "transponder_ID" && sdf.HasElement "transceiver_device" &&
    sdf.HasElement "transceiver_ID"

/-! ## Concrete configurations, states and worlds used in the examples -/

/-- A plugin element with the five required children and no noise parameter: transponder `T2`
of the device `transponder`, paired with the transceiver `tx_3`. -/
def sdfT2 : Element :=
  ⟨[("namespace", ⟨"usbl", 0⟩), ("transponder_device", ⟨"transponder", 0⟩),
    ("transponder_ID", ⟨"T2", 0⟩), ("transceiver_device", ⟨"transceiver", 0⟩),
    ("transceiver_ID", ⟨"tx_3", 0⟩)]⟩

/-- The element `sdfT2` with the transceiver `transceiver_7`. -/
def sdfT7 : Element :=
  ⟨[("namespace", ⟨"usbl", 0⟩), ("transponder_device", ⟨"transponder", 0⟩),
    ("transponder_ID", ⟨"T2", 0⟩), ("transceiver_device", ⟨"transceiver", 0⟩),
    ("transceiver_ID", ⟨"transceiver_7", 0⟩)]⟩

/-- The element `sdfT2` with the additional child `<sigma>0</sigma>`. -/
def sdfSigmaZero : Element :=
  ⟨sdfT2.children ++ [("sigma", ⟨"0", 0⟩)]⟩

/-- The element `sdfT2` with the additional child `<sigma>-2</sigma>`. -/
def sdfSigmaNegative : Element :=
  ⟨sdfT2.children ++ [("sigma", ⟨"-2", -2⟩)]⟩

/-- The plugin constructed (with `m_soundSpeed` holding 0) and loaded from `sdfT2`. -/
def pluginT2 : TransponderPlugin :=
  ((TransponderPlugin.ctor 0).Load true sdfT2).1

/-- The plugin constructed and loaded from `sdfT7`. -/
def pluginT7 : TransponderPlugin :=
  ((TransponderPlugin.ctor 0).Load true sdfT7).1

/-- The plugin constructed and loaded from `sdfSigmaZero`. -/
def pluginSigmaZero : TransponderPlugin :=
  ((TransponderPlugin.ctor 0).Load true sdfSigmaZero).1

/-- A world with the plugin's model at the origin and no other model. -/
def worldAlone : World :=
  ⟨⟨0, 0, 0⟩, []⟩

/-- A world with the plugin's model at the origin and the model `box` at `(x, 0, 0)`. -/
def worldBoxAt (x : ℚ) : World :=
  ⟨⟨0, 0, 0⟩, [("box", ⟨x, 0, 0⟩)]⟩

/-- A world with the plugin's model at the origin and the model `box` at `p`. -/
def worldBox (p : Vector3) : World :=
  ⟨⟨0, 0, 0⟩, [("box", p)]⟩

/-- The plugin `pluginT2` after a temperature message of 10 degrees at depth 0. -/
def pluginAt10 : TransponderPlugin :=
  (pluginT2.temperatureRosCallback worldAlone 10).1

/-- The plugin `pluginT2` after a temperature message of -760.2 degrees at depth 0. -/
def pluginCold : TransponderPlugin :=
  (pluginT2.temperatureRosCallback worldAlone (-760.2)).1

/-- Draws that are all 0. -/
def zeroDraws : NormalDraws :=
  fun _ _ _ => 0

/-- Draws that are 1, 2, 3 and so on. -/
def countingDraws : NormalDraws :=
  fun _ _ k => (k : ℚ) + 1

/-! ## Lemmas on the numeric helpers -/

/-- The integer part of a square root is found on the squares. -/
theorem floorAbs_iff (r : SignedRoot) (h : 0 ≤ r.sq) (n : ℕ) :
    r.floorAbs = n ↔ (n : ℚ) * n ≤ r.sq ∧ r.sq < ((n : ℚ) + 1) * (n + 1) := by
  have hf : 0 ≤ Rat.floor r.sq := by
    have : (0 : ℤ) ≤ ⌊r.sq⌋ := Int.floor_nonneg.mpr h
    simpa using this
  obtain ⟨m, hm⟩ := Int.eq_ofNat_of_zero_le hf
  have hle : ∀ k : ℕ, (k : ℚ) ≤ r.sq ↔ k ≤ m := by
    intro k
    have h1 : ((k : ℤ) : ℚ) ≤ r.sq ↔ (k : ℤ) ≤ ⌊r.sq⌋ := Int.le_floor.symm
    have h2 : ⌊r.sq⌋ = (m : ℤ) := hm
    rw [h2] at h1
    simpa using h1
  unfold SignedRoot.floorAbs
  rw [hm, Int.toNat_natCast, eq_comm, Nat.eq_sqrt]
  constructor
  · rintro ⟨h1, h2⟩
    refine ⟨?_, ?_⟩
    · have := (hle (n * n)).mpr h1
      simpa using this
    · by_contra hc
      push_neg at hc
      have := (hle ((n + 1) * (n + 1))).mp (by simpa using hc)
      omega
  · rintro ⟨h1, h2⟩
    refine ⟨(hle (n * n)).mp (by simpa using h1), ?_⟩
    by_contra hc
    push_neg at hc
    have := (hle ((n + 1) * (n + 1))).mpr hc
    have h3 : ((n : ℚ) + 1) * (n + 1) ≤ r.sq := by simpa using this
    linarith

/-- The integer part computed on the squares is the integer part of the real square root. -/
theorem floorAbs_eq_floor_sqrt (r : SignedRoot) (h : 0 ≤ r.sq) :
    (r.floorAbs : ℤ) = ⌊Real.sqrt (r.sq : ℝ)⌋ := by
  symm
  rw [Int.floor_eq_iff]
  obtain ⟨h1, h2⟩ := (floorAbs_iff r h r.floorAbs).mp rfl
  have h1' : ((r.floorAbs : ℝ)) ^ 2 ≤ (r.sq : ℝ) := by
    have := (Rat.cast_le (K := ℝ)).mpr h1
    push_cast at this
    nlinarith
  have h2' : (r.sq : ℝ) < ((r.floorAbs : ℝ) + 1) ^ 2 := by
    have := (Rat.cast_lt (K := ℝ)).mpr h2
    push_cast at this
    nlinarith
  constructor
  · push_cast
    exact Real.le_sqrt_of_sq_le h1'
  · push_cast
    exact (Real.sqrt_lt' (by positivity)).mpr h2'

/-- The truncation computed on the squares is the truncation toward zero of the real value: the
floor of a nonnegative value, the ceiling of a nonpositive one. -/
theorem trunc_real (r : SignedRoot) (h : 0 ≤ r.sq) :
    r.trunc = if r.neg then ⌈-Real.sqrt (r.sq : ℝ)⌉ else ⌊Real.sqrt (r.sq : ℝ)⌋ := by
  unfold SignedRoot.trunc
  rw [Int.ceil_neg, floorAbs_eq_floor_sqrt r h]

/-- The quotient of `fdiv` is the real quotient of the square root by the divisor. -/
theorem fdiv_real (a : Root) (b : ℚ) (hb : b ≠ 0) :
    ∃ r, fdiv a b = some r ∧
      (if r.neg then -Real.sqrt (r.sq : ℝ) else Real.sqrt (r.sq : ℝ))
        = Real.sqrt (a.sq : ℝ) / (b : ℝ) := by
  refine ⟨⟨decide (b < 0), a.sq / (b * b)⟩, by simp [fdiv, hb], ?_⟩
  have hsq : Real.sqrt ((a.sq / (b * b) : ℚ) : ℝ) = Real.sqrt (a.sq : ℝ) / |(b : ℝ)| := by
    push_cast
    rw [Real.sqrt_div' _ (mul_self_nonneg _), Real.sqrt_mul_self_eq_abs]
  rcases lt_or_gt_of_ne hb with hlt | hgt
  · have hbR : (b : ℝ) < 0 := by exact_mod_cast hlt
    simp only [hlt, decide_True, if_true, hsq, abs_of_neg hbR]
    rw [div_neg, neg_neg]
  · have hbR : (0 : ℝ) < b := by exact_mod_cast hgt
    have hn : ¬ b < 0 := not_lt.mpr (le_of_lt hgt)
    simp only [hn, decide_False, hsq, abs_of_pos hbR]
    simp

theorem SquaredLength_nonneg (v : Vector3) : 0 ≤ v.SquaredLength := by
  unfold Vector3.SquaredLength
  nlinarith [mul_self_nonneg v.X, mul_self_nonneg v.Y, mul_self_nonneg v.Z]

/-- The length is the real Euclidean norm. -/
theorem Length_real (v : Vector3) :
    Real.sqrt ((v.Length.sq : ℚ) : ℝ)
      = Real.sqrt ((v.X : ℝ) ^ 2 + (v.Y : ℝ) ^ 2 + (v.Z : ℝ) ^ 2) := by
  simp only [Vector3.Length, Vector3.SquaredLength]
  push_cast
  ring_nf

theorem fdiv_of_ne (a : Root) (b : ℚ) (h : b ≠ 0) :
    fdiv a b = some ⟨decide (b < 0), a.sq / (b * b)⟩ := by
  simp [fdiv, h]

/-- With a positive divisor and the quotient in `[n, n + 1)`, `sleep` receives `n`. -/
theorem toUnsigned_fdiv_positive_speed (a : Root) (speed : ℚ) (n : ℕ) (h0 : 0 ≤ a.sq)
    (hpos : 0 < speed) (h1 : (n * speed) * (n * speed) ≤ a.sq)
    (h2 : a.sq < ((n + 1) * speed) * ((n + 1) * speed)) (h3 : n < 2 ^ 32) :
    toUnsigned (fdiv a speed) = some n := by
  rw [fdiv_of_ne a speed (ne_of_gt hpos)]
  have hneg : decide (speed < 0) = false := by simp [le_of_lt hpos]
  rw [hneg]
  have hss : 0 < speed * speed := mul_pos hpos hpos
  have hsq : 0 ≤ a.sq / (speed * speed) := div_nonneg h0 (le_of_lt hss)
  have hfl : (SignedRoot.mk false (a.sq / (speed * speed))).floorAbs = n := by
    rw [floorAbs_iff _ hsq]
    constructor
    · rw [le_div_iff₀ hss]; nlinarith
    · rw [div_lt_iff₀ hss]; nlinarith
  have htr : (SignedRoot.mk false (a.sq / (speed * speed))).trunc = (n : ℤ) := by
    simp [SignedRoot.trunc, hfl]
  simp only [toUnsigned, htr]
  have h3' : (n : ℤ) < 2 ^ 32 := by exact_mod_cast h3
  rw [if_pos ⟨Int.ofNat_nonneg n, h3'⟩]
  simp

/-- With a negative divisor whose absolute value exceeds the length, the quotient lies in
`(-1, 0]` and `sleep` receives 0. -/
theorem toUnsigned_fdiv_negative_speed (a : Root) (speed : ℚ) (h0 : 0 ≤ a.sq)
    (hneg : speed < 0) (hlt : a.sq < speed * speed) :
    toUnsigned (fdiv a speed) = some 0 := by
  rw [fdiv_of_ne a speed (ne_of_lt hneg)]
  have hss : 0 < speed * speed := mul_pos_of_neg_of_neg hneg hneg
  have hsq : 0 ≤ a.sq / (speed * speed) := div_nonneg h0 (le_of_lt hss)
  have hfl : (SignedRoot.mk (decide (speed < 0)) (a.sq / (speed * speed))).floorAbs = 0 := by
    rw [floorAbs_iff _ hsq]
    constructor
    · simpa using hsq
    · rw [div_lt_iff₀ hss]; simpa using hlt
  simp [toUnsigned, SignedRoot.trunc, hfl]

/-- With a negative divisor whose absolute value does not exceed the length, the quotient is at
most -1 and its conversion to `unsigned int` has no meaning. -/
theorem toUnsigned_fdiv_negative_far (a : Root) (speed : ℚ) (hneg : speed < 0)
    (hge : speed * speed ≤ a.sq) : toUnsigned (fdiv a speed) = none := by
  rw [fdiv_of_ne a speed (ne_of_lt hneg)]
  have hdec : decide (speed < 0) = true := by simp [hneg]
  rw [hdec]
  have hss : 0 < speed * speed := mul_pos_of_neg_of_neg hneg hneg
  have hsq : 0 ≤ a.sq / (speed * speed) := div_nonneg (le_trans (le_of_lt hss) hge) (le_of_lt hss)
  have hfl : (SignedRoot.mk true (a.sq / (speed * speed))).floorAbs ≠ 0 := by
    intro h
    have := ((floorAbs_iff _ hsq 0).mp h).2
    rw [div_lt_iff₀ hss] at this
    simp at this
    linarith
  have hnot : ¬ (0 ≤ (SignedRoot.mk true (a.sq / (speed * speed))).trunc ∧
      (SignedRoot.mk true (a.sq / (speed * speed))).trunc < 2 ^ 32) := by
    simp only [SignedRoot.trunc, if_true]
    omega
  simp only [toUnsigned]
  rw [if_neg hnot]

/-- The length of a vector is below the absolute value of a rational exactly when its square is
below the square of that rational. -/
theorem Length_lt_abs_iff (v : Vector3) (b : ℚ) :
    Real.sqrt ((v.Length.sq : ℚ) : ℝ) < |(b : ℝ)| ↔ v.Length.sq < b * b := by
  have h0 : (0 : ℝ) ≤ ((v.Length.sq : ℚ) : ℝ) := by exact_mod_cast SquaredLength_nonneg v
  rw [← Real.sqrt_mul_self_eq_abs, Real.sqrt_lt_sqrt_iff h0]
  exact_mod_cast Iff.rfl

/-! ## Lemmas on the callbacks -/

theorem sendLocation_ok (self : TransponderPlugin) (w : World) (d : NormalDraws)
    (hs : 0 < self.m_noiseSigma) :
    self.sendLocation w d
      = Except.ok [Effect.publishGlobalPos
          ⟨w.self.X + d self.m_noiseMu self.m_noiseSigma 0,
            w.self.Y + d self.m_noiseMu self.m_noiseSigma 1,
            w.self.Z + d self.m_noiseMu self.m_noiseSigma 2⟩] := by
  simp [TransponderPlugin.sendLocation, hs]

theorem sendLocation_fault (self : TransponderPlugin) (w : World) (d : NormalDraws)
    (hs : ¬ 0 < self.m_noiseSigma) :
    self.sendLocation w d = Except.error Fault.stddevNotPositive := by
  simp only [TransponderPlugin.sendLocation, if_neg hs]

theorem iisRosCallback_peer_absent (self : TransponderPlugin) (w : World) (later : ℕ → World)
    (d : NormalDraws) (data : String) (hbox : w.ModelByName "box" = none) :
    self.iisRosCallback w later d data = Except.error Fault.nullDereference := by
  simp [TransponderPlugin.iisRosCallback, hbox]

theorem cisRosCallback_peer_absent (self : TransponderPlugin) (w : World) (later : ℕ → World)
    (d : NormalDraws) (data : String) (hbox : w.ModelByName "box" = none) :
    self.cisRosCallback w later d data = Except.error Fault.nullDereference := by
  simp [TransponderPlugin.cisRosCallback, hbox]

theorem iisRosCallback_unknown (self : TransponderPlugin) (w : World) (later : ℕ → World)
    (d : NormalDraws) (data : String) (boxPos : Vector3)
    (hbox : w.ModelByName "box" = some boxPos) (hcmd : data ≠ "ping") :
    self.iisRosCallback w later d data
      = Except.ok (self, [Effect.gzmsg "Unknown command, ignore\n"]) := by
  simp [TransponderPlugin.iisRosCallback, hbox, hcmd]

theorem cisRosCallback_unknown (self : TransponderPlugin) (w : World) (later : ℕ → World)
    (d : NormalDraws) (data : String) (boxPos : Vector3)
    (hbox : w.ModelByName "box" = some boxPos) (hcmd : data ≠ "ping") :
    self.cisRosCallback w later d data
      = Except.ok (self, [Effect.gzmsg "Unknown command, ignore\n"]) := by
  simp [TransponderPlugin.cisRosCallback, hbox, hcmd]

theorem iisRosCallback_ping (self : TransponderPlugin) (w : World) (later : ℕ → World)
    (d : NormalDraws) (boxPos : Vector3) (n : ℕ)
    (hbox : w.ModelByName "box" = some boxPos)
    (hn : toUnsigned (fdiv (w.self.sub boxPos).Length self.m_soundSpeed) = some n)
    (hs : 0 < self.m_noiseSigma) :
    self.iisRosCallback w later d "ping"
      = Except.ok (self,
          [Effect.gzmsg (self.m_transponderDevice ++ "_" ++ self.m_transponderID
              ++ ": Received iis_ping, responding\n"),
            Effect.sleep n,
            Effect.publishGlobalPos
              ⟨(later n).self.X + d self.m_noiseMu self.m_noiseSigma 0,
                (later n).self.Y + d self.m_noiseMu self.m_noiseSigma 1,
                (later n).self.Z + d self.m_noiseMu self.m_noiseSigma 2⟩]) := by
  simp [TransponderPlugin.iisRosCallback, hbox, hn, sendLocation_ok self _ d hs]

theorem cisRosCallback_ping (self : TransponderPlugin) (w : World) (later : ℕ → World)
    (d : NormalDraws) (boxPos : Vector3) (n : ℕ)
    (hbox : w.ModelByName "box" = some boxPos)
    (hn : toUnsigned (fdiv (w.self.sub boxPos).Length self.m_soundSpeed) = some n)
    (hs : 0 < self.m_noiseSigma) :
    self.cisRosCallback w later d "ping"
      = Except.ok (self,
          [Effect.sleep n,
            Effect.publishGlobalPos
              ⟨(later n).self.X + d self.m_noiseMu self.m_noiseSigma 0,
                (later n).self.Y + d self.m_noiseMu self.m_noiseSigma 1,
                (later n).self.Z + d self.m_noiseMu self.m_noiseSigma 2⟩]) := by
  simp [TransponderPlugin.cisRosCallback, hbox, hn, sendLocation_ok self _ d hs]

theorem iisRosCallback_ping_undefined (self : TransponderPlugin) (w : World) (later : ℕ → World)
    (d : NormalDraws) (boxPos : Vector3)
    (hbox : w.ModelByName "box" = some boxPos)
    (hn : toUnsigned (fdiv (w.self.sub boxPos).Length self.m_soundSpeed) = none) :
    self.iisRosCallback w later d "ping" = Except.error Fault.undefinedConversion := by
  simp [TransponderPlugin.iisRosCallback, hbox, hn]

theorem cisRosCallback_ping_undefined (self : TransponderPlugin) (w : World) (later : ℕ → World)
    (d : NormalDraws) (boxPos : Vector3)
    (hbox : w.ModelByName "box" = some boxPos)
    (hn : toUnsigned (fdiv (w.self.sub boxPos).Length self.m_soundSpeed) = none) :
    self.cisRosCallback w later d "ping" = Except.error Fault.undefinedConversion := by
  simp [TransponderPlugin.cisRosCallback, hbox, hn]

theorem iisRosCallback_ping_sigma (self : TransponderPlugin) (w : World) (later : ℕ → World)
    (d : NormalDraws) (boxPos : Vector3) (n : ℕ)
    (hbox : w.ModelByName "box" = some boxPos)
    (hn : toUnsigned (fdiv (w.self.sub boxPos).Length self.m_soundSpeed) = some n)
    (hs : ¬ 0 < self.m_noiseSigma) :
    self.iisRosCallback w later d "ping" = Except.error Fault.stddevNotPositive := by
  simp [TransponderPlugin.iisRosCallback, hbox, hn, sendLocation_fault self _ d hs]

theorem cisRosCallback_ping_sigma (self : TransponderPlugin) (w : World) (later : ℕ → World)
    (d : NormalDraws) (boxPos : Vector3) (n : ℕ)
    (hbox : w.ModelByName "box" = some boxPos)
    (hn : toUnsigned (fdiv (w.self.sub boxPos).Length self.m_soundSpeed) = some n)
    (hs : ¬ 0 < self.m_noiseSigma) :
    self.cisRosCallback w later d "ping" = Except.error Fault.stddevNotPositive := by
  simp [TransponderPlugin.cisRosCallback, hbox, hn, sendLocation_fault self _ d hs]

/-- An accepted ping returns from `iisRosCallback` exactly when the box is present, the delay is
one that `sleep` can receive and the standard deviation is positive; the state is then unchanged
and the effects are the log line, the sleep and one position message. -/
theorem iisRosCallback_ping_iff (self : TransponderPlugin) (w : World) (later : ℕ → World)
    (d : NormalDraws) (s : TransponderPlugin) (es : List Effect) :
    self.iisRosCallback w later d "ping" = Except.ok (s, es) ↔
      ∃ boxPos n, w.ModelByName "box" = some boxPos ∧
        toUnsigned (fdiv (w.self.sub boxPos).Length self.m_soundSpeed) = some n ∧
        0 < self.m_noiseSigma ∧ s = self ∧
        es = [Effect.gzmsg (self.m_transponderDevice ++ "_" ++ self.m_transponderID
                ++ ": Received iis_ping, responding\n"),
              Effect.sleep n,
              Effect.publishGlobalPos
                ⟨(later n).self.X + d self.m_noiseMu self.m_noiseSigma 0,
                  (later n).self.Y + d self.m_noiseMu self.m_noiseSigma 1,
                  (later n).self.Z + d self.m_noiseMu self.m_noiseSigma 2⟩] := by
  constructor
  · intro h
    cases hbox : w.ModelByName "box" with
    | none => rw [iisRosCallback_peer_absent self w later d _ hbox] at h; cases h
    | some boxPos =>
      cases hn : toUnsigned (fdiv (w.self.sub boxPos).Length self.m_soundSpeed) with
      | none => rw [iisRosCallback_ping_undefined self w later d boxPos hbox hn] at h; cases h
      | some n =>
        by_cases hs : 0 < self.m_noiseSigma
        · rw [iisRosCallback_ping self w later d boxPos n hbox hn hs] at h
          cases h
          exact ⟨boxPos, n, rfl, hn, hs, rfl, rfl⟩
        · rw [iisRosCallback_ping_sigma self w later d boxPos n hbox hn hs] at h; cases h
  · rintro ⟨boxPos, n, hbox, hn, hs, rfl, rfl⟩
    exact iisRosCallback_ping s w later d boxPos n hbox hn hs

/-- The same for `cisRosCallback`, without the log line. -/
theorem cisRosCallback_ping_iff (self : TransponderPlugin) (w : World) (later : ℕ → World)
    (d : NormalDraws) (s : TransponderPlugin) (es : List Effect) :
    self.cisRosCallback w later d "ping" = Except.ok (s, es) ↔
      ∃ boxPos n, w.ModelByName "box" = some boxPos ∧
        toUnsigned (fdiv (w.self.sub boxPos).Length self.m_soundSpeed) = some n ∧
        0 < self.m_noiseSigma ∧ s = self ∧
        es = [Effect.sleep n,
              Effect.publishGlobalPos
                ⟨(later n).self.X + d self.m_noiseMu self.m_noiseSigma 0,
                  (later n).self.Y + d self.m_noiseMu self.m_noiseSigma 1,
                  (later n).self.Z + d self.m_noiseMu self.m_noiseSigma 2⟩] := by
  constructor
  · intro h
    cases hbox : w.ModelByName "box" with
    | none => rw [cisRosCallback_peer_absent self w later d _ hbox] at h; cases h
    | some boxPos =>
      cases hn : toUnsigned (fdiv (w.self.sub boxPos).Length self.m_soundSpeed) with
      | none => rw [cisRosCallback_ping_undefined self w later d boxPos hbox hn] at h; cases h
      | some n =>
        by_cases hs : 0 < self.m_noiseSigma
        · rw [cisRosCallback_ping self w later d boxPos n hbox hn hs] at h
          cases h
          exact ⟨boxPos, n, rfl, hn, hs, rfl, rfl⟩
        · rw [cisRosCallback_ping_sigma self w later d boxPos n hbox hn hs] at h; cases h
  · rintro ⟨boxPos, n, hbox, hn, hs, rfl, rfl⟩
    exact cisRosCallback_ping s w later d boxPos n hbox hn hs

/-- A ping callback that returns leaves every data member as it was. -/
theorem iisRosCallback_state (self : TransponderPlugin) (w : World) (later : ℕ → World)
    (d : NormalDraws) (data : String) (s : TransponderPlugin) (es : List Effect)
    (h : self.iisRosCallback w later d data = Except.ok (s, es)) : s = self := by
  by_cases hcmd : data = "ping"
  · subst hcmd
    obtain ⟨_, _, _, _, _, hs, _⟩ := (iisRosCallback_ping_iff self w later d s es).mp h
    exact hs
  · cases hbox : w.ModelByName "box" with
    | none => rw [iisRosCallback_peer_absent self w later d data hbox] at h; cases h
    | some boxPos =>
      rw [iisRosCallback_unknown self w later d data boxPos hbox hcmd] at h; cases h; rfl

theorem cisRosCallback_state (self : TransponderPlugin) (w : World) (later : ℕ → World)
    (d : NormalDraws) (data : String) (s : TransponderPlugin) (es : List Effect)
    (h : self.cisRosCallback w later d data = Except.ok (s, es)) : s = self := by
  by_cases hcmd : data = "ping"
  · subst hcmd
    obtain ⟨_, _, _, _, _, hs, _⟩ := (cisRosCallback_ping_iff self w later d s es).mp h
    exact hs
  · cases hbox : w.ModelByName "box" with
    | none => rw [cisRosCallback_peer_absent self w later d data hbox] at h; cases h
    | some boxPos =>
      rw [cisRosCallback_unknown self w later d data boxPos hbox hcmd] at h; cases h; rfl

theorem commandRosCallback_state (self : TransponderPlugin) (msg : USBLCommand)
    (s : TransponderPlugin) (es : List Effect)
    (h : self.commandRosCallback msg = Except.ok (s, es)) : s = self := by
  unfold TransponderPlugin.commandRosCallback at h
  split at h
  · cases h
  · cases h; rfl

theorem Load_soundSpeed (self : TransponderPlugin) (ros : Bool) (sdf : Element) :
    (self.Load ros sdf).1.m_soundSpeed = self.m_soundSpeed := by
  unfold TransponderPlugin.Load
  repeat' split
  all_goals rfl

theorem Load_complete (self : TransponderPlugin) (sdf : Element)
    (hreq : requiredPresent sdf = true) :
    (self.Load true sdf).1.m_noiseMu
      = (if sdf.HasElement "mu" then sdf.GetDouble "mu" else self.m_noiseMu) ∧
    (self.Load true sdf).1.m_noiseSigma
      = (if sdf.HasElement "sigma" then sdf.GetDouble "sigma" else self.m_noiseSigma) ∧
    (self.Load true sdf).1.m_iisSub
      = some (topicBase (sdf.GetString "namespace") (sdf.GetString "transponder_device")
          (sdf.GetString "transponder_ID") ++ "/individual_interrogation_ping") ∧
    (self.Load true sdf).1.m_cisSub
      = some ("/" ++ sdf.GetString "namespace" ++ "/common_interrogation_ping") ∧
    (self.Load true sdf).1.m_temperatureSub
      = some (topicBase (sdf.GetString "namespace") (sdf.GetString "transponder_device")
          (sdf.GetString "transponder_ID") ++ "/temperature") ∧
    (self.Load true sdf).1.m_commandSub
      = some (topicBase (sdf.GetString "namespace") (sdf.GetString "transponder_device")
          (sdf.GetString "transponder_ID") ++ "/command_request") ∧
    (self.Load true sdf).1.m_rosQueueThread = true := by
  simp only [requiredPresent, Bool.and_eq_true] at hreq
  obtain ⟨⟨⟨⟨h1, h2⟩, h3⟩, h4⟩, h5⟩ := hreq
  simp only [TransponderPlugin.Load, h1, h2, h3, h4, h5]
  by_cases hmu : sdf.HasElement "mu" = true <;> by_cases hsg : sdf.HasElement "sigma" = true <;>
    simp [hmu, hsg]

/-- Without ROS, or without one of the five required children, `Load` creates no subscription,
starts no thread and leaves the noise parameters as they were. -/
theorem Load_incomplete (self : TransponderPlugin) (ros : Bool) (sdf : Element)
    (h : (ros && requiredPresent sdf) = false) :
    (self.Load ros sdf).1.m_iisSub = self.m_iisSub ∧
    (self.Load ros sdf).1.m_cisSub = self.m_cisSub ∧
    (self.Load ros sdf).1.m_temperatureSub = self.m_temperatureSub ∧
    (self.Load ros sdf).1.m_commandSub = self.m_commandSub ∧
    (self.Load ros sdf).1.m_rosQueueThread = self.m_rosQueueThread ∧
    (self.Load ros sdf).1.m_noiseMu = self.m_noiseMu ∧
    (self.Load ros sdf).1.m_noiseSigma = self.m_noiseSigma := by
  unfold TransponderPlugin.Load
  cases ros with
  | false => simp
  | true =>
    simp only [requiredPresent, Bool.true_and] at h
    by_cases h1 : sdf.HasElement "namespace" = true <;>
    by_cases h2 : sdf.HasElement "transponder_device" = true <;>
    by_cases h3 : sdf.HasElement "transponder_ID" = true <;>
    by_cases h4 : sdf.HasElement "transceiver_device" = true <;>
    by_cases h5 : sdf.HasElement "transceiver_ID" = true <;>
    simp_all

/-- The noise parameters after `Load`: the value of the child when `Load` runs to its end and the
child is present, the previous value otherwise. -/
theorem Load_noise (self : TransponderPlugin) (ros : Bool) (sdf : Element) :
    (self.Load ros sdf).1.m_noiseMu
      = (if (ros && requiredPresent sdf && sdf.HasElement "mu") = true then sdf.GetDouble "mu"
          else self.m_noiseMu) ∧
    (self.Load ros sdf).1.m_noiseSigma
      = (if (ros && requiredPresent sdf && sdf.HasElement "sigma") = true
          then sdf.GetDouble "sigma" else self.m_noiseSigma) := by
  cases hc : (ros && requiredPresent sdf) with
  | false =>
    obtain ⟨_, _, _, _, _, hmu, hsg⟩ := Load_incomplete self ros sdf hc
    simp [hmu, hsg]
  | true =>
    simp only [Bool.and_eq_true] at hc
    obtain ⟨hr, hreq⟩ := hc
    subst hr
    obtain ⟨hmu, hsg, _⟩ := Load_complete self sdf hreq
    simp [hmu, hsg]

/-! ## Facts on the examples -/

theorem pluginT2_ids :
    pluginT2.m_transponderID = "T2" ∧ pluginT2.m_transceiverID = "tx_3" ∧
      pluginT2.m_transponderDevice = "transponder" := by
  refine ⟨rfl, rfl, rfl⟩

theorem worldBoxAt_box (x : ℚ) : (worldBoxAt x).ModelByName "box" = some ⟨x, 0, 0⟩ := by
  simp [worldBoxAt, World.ModelByName, List.lookup]

theorem worldBox_box (p : Vector3) : (worldBox p).ModelByName "box" = some p := by
  simp [worldBox, World.ModelByName, List.lookup]

theorem worldBoxAt_dist (x : ℚ) : ((worldBoxAt x).self.sub ⟨x, 0, 0⟩).Length = ⟨x * x⟩ := by
  simp [worldBoxAt, Vector3.sub, Vector3.Length, Vector3.SquaredLength]

theorem worldBox_dist (p : Vector3) :
    ((worldBox p).self.sub p).Length = ⟨p.X * p.X + p.Y * p.Y + p.Z * p.Z⟩ := by
  simp [worldBox, Vector3.sub, Vector3.Length, Vector3.SquaredLength]

theorem pluginAt10_soundSpeed : pluginAt10.m_soundSpeed = 1540.4 := by
  simp only [pluginAt10, TransponderPlugin.temperatureRosCallback, worldAlone]
  norm_num

theorem pluginCold_soundSpeed : pluginCold.m_soundSpeed = -1540.4 := by
  simp only [pluginCold, TransponderPlugin.temperatureRosCallback, worldAlone]
  norm_num

theorem pluginAt10_noise : pluginAt10.m_noiseMu = 0 ∧ pluginAt10.m_noiseSigma = 1 := by
  have h := Load_complete (TransponderPlugin.ctor 0) sdfT2 rfl
  exact ⟨h.1.trans rfl, h.2.1.trans rfl⟩

theorem pluginCold_noise : pluginCold.m_noiseMu = 0 ∧ pluginCold.m_noiseSigma = 1 := by
  have h := Load_complete (TransponderPlugin.ctor 0) sdfT2 rfl
  exact ⟨h.1.trans rfl, h.2.1.trans rfl⟩

theorem pluginAt10_sigma_pos : 0 < pluginAt10.m_noiseSigma := by
  rw [pluginAt10_noise.2]; norm_num

theorem pluginCold_sigma_pos : 0 < pluginCold.m_noiseSigma := by
  rw [pluginCold_noise.2]; norm_num

theorem pluginAt10_delay_far :
    toUnsigned (fdiv ((worldBoxAt 1540.4).self.sub ⟨1540.4, 0, 0⟩).Length pluginAt10.m_soundSpeed)
      = some 1 := by
  rw [worldBoxAt_dist, pluginAt10_soundSpeed]
  exact toUnsigned_fdiv_positive_speed _ _ 1 (by norm_num) (by norm_num) (by norm_num)
    (by norm_num) (by norm_num)

theorem pluginAt10_delay_near :
    toUnsigned (fdiv ((worldBoxAt 770.2).self.sub ⟨770.2, 0, 0⟩).Length pluginAt10.m_soundSpeed)
      = some 0 := by
  rw [worldBoxAt_dist, pluginAt10_soundSpeed]
  exact toUnsigned_fdiv_positive_speed _ _ 0 (by norm_num) (by norm_num) (by norm_num)
    (by norm_num) (by norm_num)

/-- Off the axes: with the box at `(1000.5, 1000.5, 0)`, about 1414.9 m away, and the sound
speed 1540.4 the quotient is below 1 and `sleep` receives 0. -/
theorem pluginAt10_delay_diagonal :
    toUnsigned (fdiv ((worldBox ⟨1000.5, 1000.5, 0⟩).self.sub ⟨1000.5, 1000.5, 0⟩).Length
      pluginAt10.m_soundSpeed) = some 0 := by
  rw [worldBox_dist, pluginAt10_soundSpeed]
  exact toUnsigned_fdiv_positive_speed _ _ 0 (by norm_num) (by norm_num) (by norm_num)
    (by norm_num) (by norm_num)

/-- Off the axes: with the box at `(1000, 1172, 0)`, about 1540.6 m away, and the sound speed
-1540.4 the quotient is below -1 and its conversion has no meaning. -/
theorem pluginCold_delay_undefined :
    toUnsigned (fdiv ((worldBox ⟨1000, 1172, 0⟩).self.sub ⟨1000, 1172, 0⟩).Length
      pluginCold.m_soundSpeed) = none := by
  rw [worldBox_dist, pluginCold_soundSpeed]
  exact toUnsigned_fdiv_negative_far _ _ (by norm_num) (by norm_num)

/-! ## The claims -/

/-- C1: a temperature update stores the temperature `t` and sets the cached sound speed to
`1540.4 + z/1000*17 + (t-10)*4`, with `z` the Z-coordinate of the plugin's own position; for
`t = 20` and `z = 1000` the sound speed is `1597.4`. -/
theorem C1_temperature_update_sets_sound_speed (self : TransponderPlugin) (w : World) (t : ℚ) :
    (self.temperatureRosCallback w t).1.m_temperature = t ∧
    (self.temperatureRosCallback w t).1.m_soundSpeed
      = 1540.4 + w.self.Z / 1000 * 17 + (t - 10) * 4 ∧
    (∀ x y ms, (self.temperatureRosCallback ⟨⟨x, y, 1000⟩, ms⟩ 20).1.m_soundSpeed = 1597.4) := by
  refine ⟨rfl, rfl, ?_⟩
  intro x y ms
  simp only [TransponderPlugin.temperatureRosCallback]
  norm_num

/-- C2, as amended: when the configured `transceiverID` ends in the decimal digit `d`, the command
handler publishes exactly one response, whose data is `"hi from transponder_"` followed by the
plugin's own configured `transponderID` (the request is not read), whose `responseID` is 1 and
whose transceiver number is `d`; the state is unchanged. -/
theorem C2_response_names_configured_transponder (self : TransponderPlugin) (msg : USBLCommand)
    (d : ℕ) (hd : d < 10)
    (hlast : self.m_transceiverID.data.getLast? = some (Char.ofNat ('0'.toNat + d))) :
    self.commandRosCallback msg
      = Except.ok (self, [Effect.publishCommandResponse
          { data := "hi from transponder_" ++ self.m_transponderID
            responseID := 1
            transceverID := (d : ℤ) }]) := by
  have hval : ((Char.ofNat ('0'.toNat + d)).toNat : ℤ) - ('0'.toNat : ℤ) = (d : ℤ) := by
    interval_cases d <;> rfl
  simp only [TransponderPlugin.commandRosCallback, hlast, hval]

/-- C2, witness: the plugin configured with the transceiver `transceiver_7` answers the request
`(5, "T1", "x")` with the transceiver number 7. -/
theorem C2_response_names_configured_transponder_witness :
    7 < 10 ∧ pluginT7.m_transceiverID.data.getLast? = some (Char.ofNat ('0'.toNat + 7)) ∧
    pluginT7.commandRosCallback ⟨5, "T1", "x"⟩
      = Except.ok (pluginT7, [Effect.publishCommandResponse
          { data := "hi from transponder_" ++ pluginT7.m_transponderID
            responseID := 1
            transceverID := ((7 : ℕ) : ℤ) }]) :=
  ⟨by decide, rfl,
    C2_response_names_configured_transponder pluginT7 ⟨5, "T1", "x"⟩ 7 (by decide) rfl⟩

/-- C2, counterexample: the plugin configured as transponder `T2` with the transceiver `tx_3`
answers the request `(5, "T1", "x")` with the data `"hi from transponder_T2"`, not with
`"hi from transponder_"` followed by the `transponderID` of the request. -/
theorem C2_request_transponder_not_echoed :
    pluginT2.commandRosCallback ⟨5, "T1", "x"⟩
      = Except.ok (pluginT2,
          [Effect.publishCommandResponse ⟨"hi from transponder_T2", 1, 3⟩]) ∧
    ("hi from transponder_T2" : String)
      ≠ "hi from transponder_" ++ (USBLCommand.mk 5 "T1" "x").transponderID := by
  refine ⟨rfl, by decide⟩

/-- C3: the failing input.  With the cached sound speed 1540.4 and the plugin's model at the
origin, a ping with the box at `(1540.4, 0, 0)` makes both handlers call `sleep` with 1, the
quotient of distance and sound speed; with the box at `(770.2, 0, 0)` the quotient is `1/2`, the
`unsigned int` parameter of `sleep` receives its truncation, and both handlers wait 0 seconds
before they send the location. -/
theorem C3_half_second_delay_truncated_to_zero (later : ℕ → World) (d : NormalDraws) :
    fdiv ((worldBoxAt 1540.4).self.sub ⟨1540.4, 0, 0⟩).Length pluginAt10.m_soundSpeed
      = some (SignedRoot.ofRat 1) ∧
    pluginAt10.iisRosCallback (worldBoxAt 1540.4) later d "ping"
      = Except.ok (pluginAt10,
          [Effect.gzmsg (pluginAt10.m_transponderDevice ++ "_" ++ pluginAt10.m_transponderID
              ++ ": Received iis_ping, responding\n"),
            Effect.sleep 1,
            Effect.publishGlobalPos
              ⟨(later 1).self.X + d pluginAt10.m_noiseMu pluginAt10.m_noiseSigma 0,
                (later 1).self.Y + d pluginAt10.m_noiseMu pluginAt10.m_noiseSigma 1,
                (later 1).self.Z + d pluginAt10.m_noiseMu pluginAt10.m_noiseSigma 2⟩]) ∧
    pluginAt10.cisRosCallback (worldBoxAt 1540.4) later d "ping"
      = Except.ok (pluginAt10,
          [Effect.sleep 1,
            Effect.publishGlobalPos
              ⟨(later 1).self.X + d pluginAt10.m_noiseMu pluginAt10.m_noiseSigma 0,
                (later 1).self.Y + d pluginAt10.m_noiseMu pluginAt10.m_noiseSigma 1,
                (later 1).self.Z + d pluginAt10.m_noiseMu pluginAt10.m_noiseSigma 2⟩]) ∧
    fdiv ((worldBoxAt 770.2).self.sub ⟨770.2, 0, 0⟩).Length pluginAt10.m_soundSpeed
      = some (SignedRoot.ofRat (1 / 2)) ∧
    pluginAt10.iisRosCallback (worldBoxAt 770.2) later d "ping"
      = Except.ok (pluginAt10,
          [Effect.gzmsg (pluginAt10.m_transponderDevice ++ "_" ++ pluginAt10.m_transponderID
              ++ ": Received iis_ping, responding\n"),
            Effect.sleep 0,
            Effect.publishGlobalPos
              ⟨(later 0).self.X + d pluginAt10.m_noiseMu pluginAt10.m_noiseSigma 0,
                (later 0).self.Y + d pluginAt10.m_noiseMu pluginAt10.m_noiseSigma 1,
                (later 0).self.Z + d pluginAt10.m_noiseMu pluginAt10.m_noiseSigma 2⟩]) ∧
    pluginAt10.cisRosCallback (worldBoxAt 770.2) later d "ping"
      = Except.ok (pluginAt10,
          [Effect.sleep 0,
            Effect.publishGlobalPos
              ⟨(later 0).self.X + d pluginAt10.m_noiseMu pluginAt10.m_noiseSigma 0,
                (later 0).self.Y + d pluginAt10.m_noiseMu pluginAt10.m_noiseSigma 1,
                (later 0).self.Z + d pluginAt10.m_noiseMu pluginAt10.m_noiseSigma 2⟩]) := by
  refine ⟨?_, ?_, ?_, ?_, ?_, ?_⟩
  · rw [worldBoxAt_dist, pluginAt10_soundSpeed, fdiv_of_ne _ _ (by norm_num)]
    norm_num [SignedRoot.ofRat]
  · exact iisRosCallback_ping _ _ later d _ 1 (worldBoxAt_box _) pluginAt10_delay_far
      pluginAt10_sigma_pos
  · exact cisRosCallback_ping _ _ later d _ 1 (worldBoxAt_box _) pluginAt10_delay_far
      pluginAt10_sigma_pos
  · rw [worldBoxAt_dist, pluginAt10_soundSpeed, fdiv_of_ne _ _ (by norm_num)]
    norm_num [SignedRoot.ofRat]
  · exact iisRosCallback_ping _ _ later d _ 0 (worldBoxAt_box _) pluginAt10_delay_near
      pluginAt10_sigma_pos
  · exact cisRosCallback_ping _ _ later d _ 0 (worldBoxAt_box _) pluginAt10_delay_near
      pluginAt10_sigma_pos

/-- C4: the failing input.  In a world without the model `box`, a ping whose command is `"stop"`,
`"PING"` or `""` makes both ping handlers dereference the null `box` before the command is
looked at. -/
theorem C4_unknown_command_without_peer_faults (self : TransponderPlugin) (pos : Vector3)
    (later : ℕ → World) (d : NormalDraws) :
    self.iisRosCallback ⟨pos, []⟩ later d "stop" = Except.error Fault.nullDereference ∧
    self.iisRosCallback ⟨pos, []⟩ later d "PING" = Except.error Fault.nullDereference ∧
    self.iisRosCallback ⟨pos, []⟩ later d "" = Except.error Fault.nullDereference ∧
    self.cisRosCallback ⟨pos, []⟩ later d "stop" = Except.error Fault.nullDereference ∧
    self.cisRosCallback ⟨pos, []⟩ later d "PING" = Except.error Fault.nullDereference ∧
    self.cisRosCallback ⟨pos, []⟩ later d "" = Except.error Fault.nullDereference :=
  ⟨rfl, rfl, rfl, rfl, rfl, rfl⟩

/-- C5: an accepted ping makes a handler return exactly when the C++ is defined (box present,
delay `n` that `sleep` can receive, positive standard deviation), and it has then published
exactly one position message: the own position read from the world once `sleep n` has returned
(`later n`, not the world `w` used for the distance), with the draws number 0, 1 and 2 of the
normal distribution of parameters `m_noiseMu`, `m_noiseSigma` added to X, Y and Z in this order.
With draws that are all 0 the message is the position itself.  The two parameters are 0 and 1
after construction, and `Load` replaces each by the value of the child `mu`, `sigma` of the
configuration when it runs to its end and that child is present. -/
theorem C5_telemetry_is_send_time_position_plus_draws (self : TransponderPlugin) (w : World)
    (later : ℕ → World) (d : NormalDraws) (s : TransponderPlugin) (es : List Effect) (u : ℚ)
    (ros : Bool) (sdf : Element) :
    (self.iisRosCallback w later d "ping" = Except.ok (s, es) ↔
      ∃ boxPos n, w.ModelByName "box" = some boxPos ∧
        toUnsigned (fdiv (w.self.sub boxPos).Length self.m_soundSpeed) = some n ∧
        0 < self.m_noiseSigma ∧ s = self ∧
        es = [Effect.gzmsg (self.m_transponderDevice ++ "_" ++ self.m_transponderID
                ++ ": Received iis_ping, responding\n"),
              Effect.sleep n,
              Effect.publishGlobalPos
                ⟨(later n).self.X + d self.m_noiseMu self.m_noiseSigma 0,
                  (later n).self.Y + d self.m_noiseMu self.m_noiseSigma 1,
                  (later n).self.Z + d self.m_noiseMu self.m_noiseSigma 2⟩]) ∧
    (self.cisRosCallback w later d "ping" = Except.ok (s, es) ↔
      ∃ boxPos n, w.ModelByName "box" = some boxPos ∧
        toUnsigned (fdiv (w.self.sub boxPos).Length self.m_soundSpeed) = some n ∧
        0 < self.m_noiseSigma ∧ s = self ∧
        es = [Effect.sleep n,
              Effect.publishGlobalPos
                ⟨(later n).self.X + d self.m_noiseMu self.m_noiseSigma 0,
                  (later n).self.Y + d self.m_noiseMu self.m_noiseSigma 1,
                  (later n).self.Z + d self.m_noiseMu self.m_noiseSigma 2⟩]) ∧
    (self.sendLocation w zeroDraws = Except.ok es ↔
      0 < self.m_noiseSigma ∧
        es = [Effect.publishGlobalPos ⟨w.self.X, w.self.Y, w.self.Z⟩]) ∧
    (TransponderPlugin.ctor u).m_noiseMu = 0 ∧ (TransponderPlugin.ctor u).m_noiseSigma = 1 ∧
    ((TransponderPlugin.ctor u).Load ros sdf).1.m_noiseMu
      = (if (ros && requiredPresent sdf && sdf.HasElement "mu") = true then sdf.GetDouble "mu"
          else 0) ∧
    ((TransponderPlugin.ctor u).Load ros sdf).1.m_noiseSigma
      = (if (ros && requiredPresent sdf && sdf.HasElement "sigma") = true
          then sdf.GetDouble "sigma" else 1) := by
  refine ⟨iisRosCallback_ping_iff self w later d s es, cisRosCallback_ping_iff self w later d s es,
    ?_, rfl, rfl, (Load_noise (TransponderPlugin.ctor u) ros sdf).1,
    (Load_noise (TransponderPlugin.ctor u) ros sdf).2⟩
  by_cases hs : 0 < self.m_noiseSigma
  · rw [sendLocation_ok self w zeroDraws hs]
    constructor
    · intro h
      cases h
      exact ⟨hs, by simp [zeroDraws]⟩
    · rintro ⟨_, rfl⟩
      simp [zeroDraws]
  · rw [sendLocation_fault self w zeroDraws hs]
    constructor
    · intro h; cases h
    · rintro ⟨h, _⟩; exact absurd h hs

/-- C5, witness: the plugin loaded from `sdfT2` with sound speed 1540.4 is pinged with the box
at `(1000.5, 1000.5, 0)`, less than one second of sound away, while its own model is at
`(n, 2, 3)` after `n` seconds; the draws are 1, 2 and 3.  The handler sleeps 0 seconds and
publishes `(0 + 1, 2 + 2, 3 + 3)`. -/
theorem C5_telemetry_is_send_time_position_plus_draws_witness :
    pluginAt10.cisRosCallback (worldBox ⟨1000.5, 1000.5, 0⟩) (fun n => ⟨⟨n, 2, 3⟩, []⟩)
        countingDraws "ping"
      = Except.ok (pluginAt10, [Effect.sleep 0, Effect.publishGlobalPos ⟨1, 4, 6⟩]) :=
  (C5_telemetry_is_send_time_position_plus_draws pluginAt10 (worldBox ⟨1000.5, 1000.5, 0⟩)
    (fun n => ⟨⟨n, 2, 3⟩, []⟩) countingDraws pluginAt10
    [Effect.sleep 0, Effect.publishGlobalPos ⟨1, 4, 6⟩] 0 true sdfT2).2.1.mpr
    ⟨⟨1000.5, 1000.5, 0⟩, 0, worldBox_box _, pluginAt10_delay_diagonal, pluginAt10_sigma_pos, rfl,
      by norm_num [countingDraws]⟩

/-- C6: the failing input.  Whatever the command, a ping received while the world has no model
`box` makes both ping handlers dereference a null pointer: they do not return normally. -/
theorem C6_ping_without_peer_faults (self : TransponderPlugin) (w : World) (later : ℕ → World)
    (d : NormalDraws) (data : String) (hbox : w.ModelByName "box" = none) :
    self.iisRosCallback w later d data = Except.error Fault.nullDereference ∧
    self.cisRosCallback w later d data = Except.error Fault.nullDereference :=
  ⟨iisRosCallback_peer_absent self w later d data hbox,
    cisRosCallback_peer_absent self w later d data hbox⟩

/-- C6, witness: the ping `"ping"` in the world that holds the plugin's model alone. -/
theorem C6_ping_without_peer_faults_witness :
    worldAlone.ModelByName "box" = none ∧
    pluginAt10.iisRosCallback worldAlone (fun _ => worldAlone) zeroDraws "ping"
      = Except.error Fault.nullDereference ∧
    pluginAt10.cisRosCallback worldAlone (fun _ => worldAlone) zeroDraws "ping"
      = Except.error Fault.nullDereference :=
  ⟨rfl, C6_ping_without_peer_faults pluginAt10 worldAlone (fun _ => worldAlone) zeroDraws "ping" rfl⟩

/-- C7, as amended: for an accepted ping received while the cached sound speed is negative, with
the peer present at a distance smaller than the absolute value of the sound speed and a positive
standard deviation of the noise, the handlers do not abort the cycle: the quotient of distance
and sound speed is computed, it lies in `(-1, 0]`, `sleep` is called with 0 and one position
message is published. -/
theorem C7_negative_sound_speed_still_answers (self : TransponderPlugin) (w : World)
    (later : ℕ → World) (d : NormalDraws) (boxPos : Vector3)
    (hbox : w.ModelByName "box" = some boxPos)
    (hneg : self.m_soundSpeed < 0)
    (hlt : (w.self.sub boxPos).Length.sq < self.m_soundSpeed * self.m_soundSpeed)
    (hs : 0 < self.m_noiseSigma) :
    (∃ q, fdiv (w.self.sub boxPos).Length self.m_soundSpeed = some ⟨true, q⟩ ∧ 0 ≤ q ∧ q < 1) ∧
    self.iisRosCallback w later d "ping"
      = Except.ok (self,
          [Effect.gzmsg (self.m_transponderDevice ++ "_" ++ self.m_transponderID
              ++ ": Received iis_ping, responding\n"),
            Effect.sleep 0,
            Effect.publishGlobalPos
              ⟨(later 0).self.X + d self.m_noiseMu self.m_noiseSigma 0,
                (later 0).self.Y + d self.m_noiseMu self.m_noiseSigma 1,
                (later 0).self.Z + d self.m_noiseMu self.m_noiseSigma 2⟩]) ∧
    self.cisRosCallback w later d "ping"
      = Except.ok (self,
          [Effect.sleep 0,
            Effect.publishGlobalPos
              ⟨(later 0).self.X + d self.m_noiseMu self.m_noiseSigma 0,
                (later 0).self.Y + d self.m_noiseMu self.m_noiseSigma 1,
                (later 0).self.Z + d self.m_noiseMu self.m_noiseSigma 2⟩]) := by
  have h0 : 0 ≤ (w.self.sub boxPos).Length.sq := SquaredLength_nonneg _
  have hss : 0 < self.m_soundSpeed * self.m_soundSpeed := mul_pos_of_neg_of_neg hneg hneg
  refine ⟨⟨(w.self.sub boxPos).Length.sq / (self.m_soundSpeed * self.m_soundSpeed), ?_,
    div_nonneg h0 (le_of_lt hss), (div_lt_one hss).mpr hlt⟩, ?_, ?_⟩
  · rw [fdiv_of_ne _ _ (ne_of_lt hneg)]
    simp [hneg]
  · exact iisRosCallback_ping self w later d boxPos 0 hbox
      (toUnsigned_fdiv_negative_speed _ _ h0 hneg hlt) hs
  · exact cisRosCallback_ping self w later d boxPos 0 hbox
      (toUnsigned_fdiv_negative_speed _ _ h0 hneg hlt) hs

/-- C7, witness: the sound speed -1540.4 (cached after a temperature message of -760.2 degrees)
and the box at `(1000.5, 1000.5, 0)`, about 1414.9 m away. -/
theorem C7_negative_sound_speed_still_answers_witness :
    (worldBox ⟨1000.5, 1000.5, 0⟩).ModelByName "box" = some ⟨1000.5, 1000.5, 0⟩ ∧
    pluginCold.m_soundSpeed < 0 ∧
    ((worldBox ⟨1000.5, 1000.5, 0⟩).self.sub ⟨1000.5, 1000.5, 0⟩).Length.sq
      < pluginCold.m_soundSpeed * pluginCold.m_soundSpeed ∧
    0 < pluginCold.m_noiseSigma ∧
    pluginCold.cisRosCallback (worldBox ⟨1000.5, 1000.5, 0⟩)
        (fun _ => worldBox ⟨1000.5, 1000.5, 0⟩) countingDraws "ping"
      = Except.ok (pluginCold,
          [Effect.sleep 0,
            Effect.publishGlobalPos
              ⟨(worldBox ⟨1000.5, 1000.5, 0⟩).self.X
                  + countingDraws pluginCold.m_noiseMu pluginCold.m_noiseSigma 0,
                (worldBox ⟨1000.5, 1000.5, 0⟩).self.Y
                  + countingDraws pluginCold.m_noiseMu pluginCold.m_noiseSigma 1,
                (worldBox ⟨1000.5, 1000.5, 0⟩).self.Z
                  + countingDraws pluginCold.m_noiseMu pluginCold.m_noiseSigma 2⟩]) :=
  ⟨worldBox_box _, by rw [pluginCold_soundSpeed]; norm_num,
    by rw [worldBox_dist, pluginCold_soundSpeed]; norm_num, pluginCold_sigma_pos,
    (C7_negative_sound_speed_still_answers pluginCold (worldBox ⟨1000.5, 1000.5, 0⟩)
      (fun _ => worldBox ⟨1000.5, 1000.5, 0⟩) countingDraws ⟨1000.5, 1000.5, 0⟩ (worldBox_box _)
      (by rw [pluginCold_soundSpeed]; norm_num)
      (by rw [worldBox_dist, pluginCold_soundSpeed]; norm_num) pluginCold_sigma_pos).2.2⟩

/-- C7, counterexample: after a temperature message of -760.2 degrees at depth 0 the cached sound
speed is -1540.4; a ping received then, with the box 770.2 m away, is answered: the handler
sleeps 0 seconds and publishes one position message. -/
theorem C7_ping_answered_at_negative_sound_speed :
    pluginCold.m_soundSpeed ≤ 0 ∧
    pluginCold.iisRosCallback (worldBoxAt 770.2) (fun _ => worldBoxAt 770.2) zeroDraws "ping"
      = Except.ok (pluginCold,
          [Effect.gzmsg "transponder_T2: Received iis_ping, responding\n",
            Effect.sleep 0, Effect.publishGlobalPos ⟨0, 0, 0⟩]) := by
  have hneg : pluginCold.m_soundSpeed < 0 := by rw [pluginCold_soundSpeed]; norm_num
  refine ⟨le_of_lt hneg, ?_⟩
  rw [iisRosCallback_ping pluginCold (worldBoxAt 770.2) _ zeroDraws ⟨770.2, 0, 0⟩ 0
    (worldBoxAt_box _)
    (toUnsigned_fdiv_negative_speed _ _ (SquaredLength_nonneg _) hneg
      (by rw [worldBoxAt_dist, pluginCold_soundSpeed]; norm_num))
    pluginCold_sigma_pos]
  have hd : pluginCold.m_transponderDevice ++ "_" ++ pluginCold.m_transponderID
      ++ ": Received iis_ping, responding\n"
        = "transponder_T2: Received iis_ping, responding\n" := by decide
  rw [hd]
  simp [zeroDraws, worldBoxAt]

/-- C8, as amended: `Load` does not look at the value of `sigma`.  Whenever ROS is initialised
and the five required children are present, `Load` stores the value of the child `sigma` as it is,
zero or negative included (or keeps the current value when there is no such child), registers the
four subscriptions and starts the queue thread. -/
theorem C8_Load_stores_sigma_unchecked (self : TransponderPlugin) (sdf : Element)
    (hreq : requiredPresent sdf = true) :
    (self.Load true sdf).1.m_noiseSigma
      = (if sdf.HasElement "sigma" then sdf.GetDouble "sigma" else self.m_noiseSigma) ∧
    (self.Load true sdf).1.m_iisSub
      = some (topicBase (sdf.GetString "namespace") (sdf.GetString "transponder_device")
          (sdf.GetString "transponder_ID") ++ "/individual_interrogation_ping") ∧
    (self.Load true sdf).1.m_cisSub
      = some ("/" ++ sdf.GetString "namespace" ++ "/common_interrogation_ping") ∧
    (self.Load true sdf).1.m_temperatureSub
      = some (topicBase (sdf.GetString "namespace") (sdf.GetString "transponder_device")
          (sdf.GetString "transponder_ID") ++ "/temperature") ∧
    (self.Load true sdf).1.m_commandSub
      = some (topicBase (sdf.GetString "namespace") (sdf.GetString "transponder_device")
          (sdf.GetString "transponder_ID") ++ "/command_request") ∧
    (self.Load true sdf).1.m_rosQueueThread = true :=
  (Load_complete self sdf hreq).2

/-- C8, witness: the configuration `sdfSigmaNegative`, whose `sigma` is -2. -/
theorem C8_Load_stores_sigma_unchecked_witness :
    requiredPresent sdfSigmaNegative = true ∧
    ((TransponderPlugin.ctor 0).Load true sdfSigmaNegative).1.m_noiseSigma
      = (if sdfSigmaNegative.HasElement "sigma" then sdfSigmaNegative.GetDouble "sigma"
          else (TransponderPlugin.ctor 0).m_noiseSigma) ∧
    ((TransponderPlugin.ctor 0).Load true sdfSigmaNegative).1.m_rosQueueThread = true :=
  ⟨rfl, (C8_Load_stores_sigma_unchecked (TransponderPlugin.ctor 0) sdfSigmaNegative rfl).1,
    (C8_Load_stores_sigma_unchecked (TransponderPlugin.ctor 0) sdfSigmaNegative
      rfl).2.2.2.2.2⟩

/-- C8, counterexample: the configuration `sdfSigmaZero` supplies `sigma = 0`; `Load` does not
reject it: it stores 0, registers the four subscriptions and starts the queue thread. -/
theorem C8_sigma_zero_is_loaded :
    sdfSigmaZero.GetDouble "sigma" = 0 ∧
    pluginSigmaZero.m_noiseSigma = 0 ∧
    pluginSigmaZero.m_iisSub = some "/usbl/transponder_T2/individual_interrogation_ping" ∧
    pluginSigmaZero.m_cisSub = some "/usbl/common_interrogation_ping" ∧
    pluginSigmaZero.m_temperatureSub = some "/usbl/transponder_T2/temperature" ∧
    pluginSigmaZero.m_commandSub = some "/usbl/transponder_T2/command_request" ∧
    pluginSigmaZero.m_rosQueueThread = true := by
  have hL := Load_complete (TransponderPlugin.ctor 0) sdfSigmaZero rfl
  refine ⟨rfl, hL.2.1.trans rfl, ?_, ?_, ?_, ?_, rfl⟩
  · exact hL.2.2.1.trans (by decide)
  · exact hL.2.2.2.1.trans (by decide)
  · exact hL.2.2.2.2.1.trans (by decide)
  · exact hL.2.2.2.2.2.1.trans (by decide)

/-- C9: the failing input.  The constructor sets the temperature to 10 and leaves `m_soundSpeed`
at the indeterminate value `u` of its storage, and `Load` does not write it either: with `u = 0`
the plugin that has processed no temperature update caches a sound speed that is not
`1540.4 + z/1000*17 + (t-10)*4` for its temperature and the depth 0. -/
theorem C9_sound_speed_uninitialised_before_first_update (u : ℚ) (ros : Bool) (sdf : Element) :
    (TransponderPlugin.ctor u).m_temperature = 10 ∧
    (TransponderPlugin.ctor u).m_soundSpeed = u ∧
    ((TransponderPlugin.ctor u).Load ros sdf).1.m_soundSpeed = u ∧
    pluginT2.m_soundSpeed
      ≠ 1540.4 + worldAlone.self.Z / 1000 * 17 + (pluginT2.m_temperature - 10) * 4 := by
  refine ⟨rfl, rfl, Load_soundSpeed _ ros sdf, ?_⟩
  have h1 : pluginT2.m_soundSpeed = 0 := Load_soundSpeed _ true sdfT2
  have h2 : pluginT2.m_temperature = 10 := rfl
  rw [h1, h2]
  simp only [worldAlone]
  norm_num

/-- C10: on every state, world, command and draws, the individual-interrogation handler and the
common-interrogation handler agree on fault or return, on the resulting state and on every effect
that is not log output (the delay and the telemetry in particular). -/
theorem C10_iis_and_cis_agree_up_to_log (self : TransponderPlugin) (w : World)
    (later : ℕ → World) (d : NormalDraws) (data : String) :
    withoutLog (self.iisRosCallback w later d data)
      = withoutLog (self.cisRosCallback w later d data) := by
  cases hbox : w.ModelByName "box" with
  | none =>
    rw [iisRosCallback_peer_absent self w later d data hbox,
      cisRosCallback_peer_absent self w later d data hbox]
  | some boxPos =>
    by_cases hcmd : data = "ping"
    · subst hcmd
      cases hn : toUnsigned (fdiv (w.self.sub boxPos).Length self.m_soundSpeed) with
      | none =>
        rw [iisRosCallback_ping_undefined self w later d boxPos hbox hn,
          cisRosCallback_ping_undefined self w later d boxPos hbox hn]
      | some n =>
        by_cases hs : 0 < self.m_noiseSigma
        · rw [iisRosCallback_ping self w later d boxPos n hbox hn hs,
            cisRosCallback_ping self w later d boxPos n hbox hn hs]
          simp [withoutLog, Effect.isLog]
        · rw [iisRosCallback_ping_sigma self w later d boxPos n hbox hn hs,
            cisRosCallback_ping_sigma self w later d boxPos n hbox hn hs]
    · rw [iisRosCallback_unknown self w later d data boxPos hbox hcmd,
        cisRosCallback_unknown self w later d data boxPos hbox hcmd]

end gazebo
